import Mathlib

/-!
Shallow embedding of the arangojs connection pool and request dispatcher
(the `Connection` class: task queue, host selection, failover/retry on
transport errors, leader redirect, header layering, and the response
interpreter), together with theorems settling the frozen claims about it.

JavaScript values are modelled as follows: machine numbers that are used as
indices/counters are `Nat`; `undefined`-able numbers are `Option Nat`;
header maps (JS objects built by spread, later keys winning) are association
lists read last-wins; JSON values are a `Json` inductive.  Platform
primitives that are not code of this repository (`JSON.parse`, the
content-type regex, the URL sanitizer) appear as explicit inputs.
-/

namespace ArangojsConn

/-- Load-balancing strategy, from the `LoadBalancingStrategy` union type. -/
inductive LbStrategy where
  | NONE
  | ROUND_ROBIN
  | ONE_RANDOM
deriving DecidableEq, Repr

/-- HTTP header maps.  A JS object literal built by spreads is modelled as an
association list where a later entry for the same key shadows an earlier
one (last-wins), matching `{...a, ...b}` semantics for lookups. -/
abbrev Headers := List (String × String)

/-- Last-wins lookup in a header list: the JS-object semantics of reading a
key from an object built by successive spreads. -/
def hget : Headers → String → Option String
  | [], _ => none
  | (k, v) :: rest, key =>
    match hget rest key with
    | some w => some w
    | none => if k == key then some v else none

/-- One pending request: the `Task` record of the source
(`host` is the optional pinned host index, `retries` the retry counter,
`headers` the prepared `options.headers`). -/
structure Task where
  host : Option Nat
  allowDirtyRead : Bool
  retries : Nat
  headers : Headers
deriving DecidableEq, Repr

/-- JS truthiness of `task.host : number | undefined` as used by the
source's `!task.host` retry guard: `undefined` and `0` are both falsy. -/
def jsHostFalsy : Option Nat → Bool
  | none => true
  | some n => n == 0

/-- The `maxRetries` configuration value: `false | number | undefined`. -/
inductive MaxRetriesCfg where
  | notSet
  | off
  | val (n : Nat)
deriving DecidableEq, Repr

/-- The dispatcher configuration derived in the `Connection` constructor. -/
structure Config where
  strategy : LbStrategy
  useFailOver : Bool
  shouldRetry : Bool
  maxRetries : Nat
deriving DecidableEq, Repr

/-- The constructor's derivation of the policy fields (source lines 307-315):
`useFailOver` is on unless the strategy is `ROUND_ROBIN`; `maxRetries = false`
turns retrying off, otherwise retrying is on with bound `maxRetries || 0`. -/
def mkConfig (strategy : LbStrategy) (maxRetries : MaxRetriesCfg) : Config :=
  { strategy := strategy
    useFailOver := strategy ≠ LbStrategy.ROUND_ROBIN
    shouldRetry :=
      match maxRetries with
      | MaxRetriesCfg.off => false
      | _ => true
    maxRetries :=
      match maxRetries with
      | MaxRetriesCfg.val n => n
      | _ => 0 }

/-- The mutable dispatcher state the claims are about: the URL list (`_urls`,
in lockstep with `_hosts`), the two cursors and the FIFO task queue. -/
structure ConnState where
  urls : List String
  activeHost : Nat
  activeDirtyHost : Nat
  queue : List Task
deriving DecidableEq, Repr

/-- First index of `u` in `l` (JS `Array.prototype.indexOf`, defined on hit;
the miss case `-1` is expressed by `¬ l.contains u` in the statements). -/
def indexOfStr (l : List String) (u : String) : Nat :=
  match l with
  | [] => 0
  | x :: rest => if x == u then 0 else indexOfStr rest u + 1

/-- `Connection.addToHostList` (source lines 468-480): sanitize every URL,
append those not already stored, and return for each input the index of its
sanitized form in the stored list.  `san` is the external `sanitizeUrl`
string normalizer. -/
def addToHostList (san : String → String) (s : ConnState) (urls : List String) :
    List Nat × ConnState :=
  let cleanUrls := urls.map san
  let newUrls := cleanUrls.filter (fun u => !s.urls.contains u)
  let urls' := s.urls ++ newUrls
  (cleanUrls.map (fun u => indexOfStr urls' u), { s with urls := urls' })

/-- Host selection at dequeue time (source lines 343-352): a pinned task uses
its pin; a dirty read uses the dirty cursor, advances it and gains the
`x-arango-allow-dirty-read` header; otherwise the primary cursor is used and,
under `ROUND_ROBIN` only, advanced after its value is taken. -/
def selectHost (c : Config) (s : ConnState) (t : Task) : Nat × ConnState × Task :=
  match t.host with
  | some h => (h, s, t)
  | none =>
    if t.allowDirtyRead then
      (s.activeDirtyHost,
       { s with activeDirtyHost := (s.activeDirtyHost + 1) % s.urls.length },
       { t with headers := t.headers ++ [("x-arango-allow-dirty-read", "true")] })
    else if c.strategy = LbStrategy.ROUND_ROBIN then
      (s.activeHost, { s with activeHost := (s.activeHost + 1) % s.urls.length }, t)
    else
      (s.activeHost, s, t)

/-- A transport-level error as examined by the retry guard.  `isSystemError`
stands for the external `isSystemError(err)` classifier of `src/error.ts`
(a system-level connection error), carried as a field of the error value. -/
structure TransportErr where
  isSystemError : Bool
  syscall : String
  code : String
deriving DecidableEq, Repr

/-- The failover cursor advance on a transport error (source lines 356-364):
advance the primary cursor iff the task is not a dirty read, more than one
host is known, the cursor still equals the host the task ran on, and
failover is in use. -/
def errAdvance (c : Config) (s : ConnState) (t : Task) (host : Nat) : ConnState :=
  if !t.allowDirtyRead && decide (s.urls.length > 1) && s.activeHost == host
      && c.useFailOver then
    { s with activeHost := (s.activeHost + 1) % s.urls.length }
  else s

/-- The retry-eligibility guard (source lines 365-372): note the source
tests `!task.host`, which is JS-falsy for a pin of `0` as well as for an
absent pin; the effective bound is `maxRetries || hosts.length - 1`. -/
def retryEligible (c : Config) (s : ConnState) (t : Task) (e : TransportErr) : Bool :=
  jsHostFalsy t.host && c.shouldRetry
    && decide (t.retries < (if c.maxRetries ≠ 0 then c.maxRetries else s.urls.length - 1))
    && e.isSystemError && e.syscall == "connect" && e.code == "ECONNREFUSED"

/-- The transport-error arm of the dispatch callback (source lines 356-377):
maybe advance the failover cursor, then either re-queue the task at the tail
with `retries` incremented, or surface the error (returned as `some e`). -/
def handleErr (c : Config) (s : ConnState) (t : Task) (host : Nat) (e : TransportErr) :
    ConnState × Option TransportErr :=
  let s₁ := errAdvance c s t host
  if retryEligible c s₁ t e then
    ({ s₁ with queue := s₁.queue ++ [{ t with retries := t.retries + 1 }] }, none)
  else
    (s₁, some e)

/-- JSON values, for parsed response bodies. -/
inductive Json where
  | jnull
  | jbool (b : Bool)
  | jnum (n : Int)
  | jstr (s : String)
  | jarr (xs : List Json)
  | jobj (fields : List (String × Json))

/-- JS truthiness of a parsed value (objects and arrays are always truthy). -/
def Json.truthy : Json → Bool
  | .jnull => false
  | .jbool b => b
  | .jnum n => n != 0
  | .jstr s => s != ""
  | .jarr _ => true
  | .jobj _ => true

/-- `value.hasOwnProperty(key)` for the envelope keys: only a JSON object
carries them as own properties. -/
def Json.hasOwnProperty : Json → String → Bool
  | .jobj fields, key => fields.any (fun f => f.1 == key)
  | _, _ => false

/-- Field lookup on a JSON object (first occurrence, as `JSON.parse` keeps
one entry per key). -/
def Json.getField : Json → String → Option Json
  | .jobj fields, key => (fields.find? (fun f => f.1 == key)).map (fun f => f.2)
  | _, _ => none

/-- A transport success as seen by the dispatcher and interpreter: status
code (`0` standing for an absent `statusCode`, which is JS-falsy), response
headers, the raw body text, whether `content-type` matches the JSON media
pattern, and the result of `JSON.parse` on the body (`none` = parse throws).
The regex match and `JSON.parse` are platform primitives, so their outcomes
are carried as fields. -/
structure Res where
  statusCode : Nat
  headers : Headers
  body : String
  contentTypeJson : Bool
  parsed : Option Json

/-- A delivered response: the origin host id the dispatcher attaches
(`response.arangojsHostId = host`) together with the response. -/
structure Delivered where
  arangojsHostId : Nat
  res : Res

/-- The transport-success arm of the dispatch callback (source lines
378-394): on a 503 whose `x-arango-endpoint` header is truthy (present and
non-empty), add that URL to the host list, pin the task to the returned
index, move the primary cursor there iff it still equals the origin host,
and re-queue the task; otherwise deliver the response with its origin host
attached. -/
def handleOk (san : String → String) (s : ConnState) (t : Task) (host : Nat)
    (r : Res) : ConnState × Option Delivered :=
  let leader := hget r.headers "x-arango-endpoint"
  if r.statusCode == 503 && (match leader with | some u => u != "" | none => false) then
    let url := leader.getD ""
    let (idxs, s₁) := addToHostList san s [url]
    let index := idxs.headD 0
    let t₁ := { t with host := some index }
    let s₂ := if s₁.activeHost == host then { s₁ with activeHost := index } else s₁
    ({ s₂ with queue := s₂.queue ++ [t₁] }, none)
  else
    (s, some { arangojsHostId := host, res := r })

/-- Outcome of one transport attempt, supplied by the environment. -/
inductive Outcome where
  | err (e : TransportErr)
  | ok (r : Res)

/-- How a task's life ends: its sink is rejected with a transport error or
resolved with a delivered response. -/
inductive Settled where
  | failed (e : TransportErr)
  | delivered (d : Delivered)

/-- The task lifecycle driven by `_runQueue` for a queue holding the
incarnations of one task: dequeue, select a host, run the transport (the
environment `env` maps attempt number and chosen host to an outcome), and
handle the outcome, looping on re-queues.  Returns the total number of
transport attempts and the settlement; `none` if fuel runs out or the queue
empties. -/
def runTask (san : String → String) (c : Config) (env : Nat → Nat → Outcome) :
    Nat → Nat → ConnState → Option (Nat × Settled)
  | 0, _, _ => none
  | fuel + 1, k, s =>
    match s.queue with
    | [] => none
    | t :: rest =>
      let s₀ := { s with queue := rest }
      match selectHost c s₀ t with
      | (host, s₁, t₁) =>
        match env k host with
        | Outcome.err e =>
          match handleErr c s₁ t₁ host e with
          | (s₂, none) => runTask san c env fuel (k + 1) s₂
          | (_, some e₁) => some (k + 1, Settled.failed e₁)
        | Outcome.ok r =>
          match handleOk san s₁ t₁ host r with
          | (s₂, none) => runTask san c env fuel (k + 1) s₂
          | (_, some d) => some (k + 1, Settled.delivered d)

/-- JS truthiness of `this._transactionId : string | null`: the guard
`if (this._transactionId)` is false for `null` and for the empty string. -/
def trxActive : Option String → Bool
  | none => false
  | some t => t != ""

/-- Header layering of `Connection.request` (source lines 568-584): the
default headers, then the core `content-type` and `x-arango-version`
entries, then `x-arango-trx-id` when a transaction id is truthy, then the
caller's headers — each successive layer shadowing the earlier ones under
the last-wins object-spread semantics of `hget`. -/
def requestHeaders (defaults : Headers) (arangoVersion : Nat) (trx : Option String)
    (contentType : String) (caller : Headers) : Headers :=
  let extra : Headers :=
    defaults ++ [("content-type", contentType), ("x-arango-version", toString arangoVersion)]
  let extra : Headers :=
    if trxActive trx then extra ++ [("x-arango-trx-id", trx.getD "")] else extra
  extra ++ caller

/-- The error-envelope test of the `resolve` sink (source lines 613-618): the
parsed body is truthy and carries all four own properties `error`, `code`,
`errorMessage`, `errorNum` — only presence is examined, never the values. -/
def hasErrorEnvelope (parsedBody : Json) : Bool :=
  parsedBody.truthy && parsedBody.hasOwnProperty "error"
    && parsedBody.hasOwnProperty "code" && parsedBody.hasOwnProperty "errorMessage"
    && parsedBody.hasOwnProperty "errorNum"

/-- Classification of a response once `parsedBody` is fixed (source lines
613-628): the error envelope wins regardless of status; otherwise a status
of at least 400 (a `0` status, standing for an absent one, is JS-falsy and
never reaches 400) raises an HTTP error; otherwise success. -/
inductive ReqResult where
  | parseFailure (raw : Json)
  | arangoError (body : Json)
  | httpError (status : Nat) (body : Json)
  | success (body : Json)

/-- The classification step shared by all `parsedBody` paths of the sink. -/
def classify (statusCode : Nat) (parsedBody : Json) : ReqResult :=
  if hasErrorEnvelope parsedBody then ReqResult.arangoError parsedBody
  else if 400 ≤ statusCode then ReqResult.httpError statusCode parsedBody
  else ReqResult.success parsedBody

/-- The `resolve` sink of `Connection.request` (source lines 591-629): a
non-empty body under a JSON content type is JSON-parsed — a parse failure is
surfaced unless binary output was requested, in which case the raw body
stands; a body under any other content type is taken as its text — and the
resulting `parsedBody` is classified. -/
def interpretResponse (expectBinary : Bool) (res : Res) : ReqResult :=
  if res.body.length ≠ 0 && res.contentTypeJson then
    match res.parsed with
    | some v => classify res.statusCode v
    | none =>
      if !expectBinary then ReqResult.parseFailure (Json.jstr res.body)
      else classify res.statusCode (Json.jstr res.body)
  else if !expectBinary then
    classify res.statusCode (Json.jstr res.body)
  else
    classify res.statusCode (Json.jstr res.body)

/-- Modelled from the spec: `ArangoError` is constructed in `src/error.ts`,
which is not under `src/`; per the spec it is "a structured domain error
bearing those fields", so its `errorNum` is the `errorNum` field of the
parsed response body. -/
def arangoErrorNum (body : Json) : Option Json :=
  body.getField "errorNum"

/-- Iterated host selection for a run of back-to-back dequeues in which every
outcome is a plain success (no transport error, no redirect), so that
between selections the dispatcher touches no cursor: returns the chosen
host of each task in order and the final state. -/
def selectHosts (c : Config) : ConnState → List Task → List Nat × ConnState
  | s, [] => ([], s)
  | s, t :: ts =>
    match selectHost c s t with
    | (h, s₁, _) =>
      match selectHosts c s₁ ts with
      | (hs, s₂) => (h :: hs, s₂)

/-! ### Concrete fixtures shared by several theorems -/

/-- A connection-refused system error, as produced by a failing `connect`. -/
def connRefused : TransportErr :=
  { isSystemError := true, syscall := "connect", code := "ECONNREFUSED" }

/-- An unpinned, non-dirty task fresh from `request`. -/
def taskUnpinned : Task :=
  { host := none, allowDirtyRead := false, retries := 0, headers := [] }

/-- A task pinned to host index `0`. -/
def taskPinnedZero : Task :=
  { host := some 0, allowDirtyRead := false, retries := 0, headers := [] }

/-- Default-policy configuration: strategy `NONE`, `maxRetries` left unset. -/
def cfgNoneDefault : Config := mkConfig LbStrategy.NONE MaxRetriesCfg.notSet

/-- Configuration with `maxRetries = false`: transparent retry disabled. -/
def cfgNoneNoRetry : Config := mkConfig LbStrategy.NONE MaxRetriesCfg.off

/-- Three known hosts, cursors at 0, one unpinned task queued. -/
def threeHostState : ConnState :=
  { urls := ["http://h1:8529", "http://h2:8529", "http://h3:8529"]
    activeHost := 0, activeDirtyHost := 0, queue := [taskUnpinned] }

/-- Two known hosts, cursors at 0, one task pinned to host 0 queued. -/
def twoHostPinned : ConnState :=
  { urls := ["http://h1:8529", "http://h2:8529"]
    activeHost := 0, activeDirtyHost := 0, queue := [taskPinnedZero] }

/-- A plain 200 response with an empty body. -/
def plainOkRes : Res :=
  { statusCode := 200, headers := [], body := "", contentTypeJson := false, parsed := none }

/-! ### Helper lemmas -/

theorem errAdvance_urls (c : Config) (s : ConnState) (t : Task) (host : Nat) :
    (errAdvance c s t host).urls = s.urls := by
  unfold errAdvance
  split <;> rfl

theorem errAdvance_queue (c : Config) (s : ConnState) (t : Task) (host : Nat) :
    (errAdvance c s t host).queue = s.queue := by
  unfold errAdvance
  split <;> rfl

theorem errAdvance_retryEligible (c : Config) (s : ConnState) (t : Task) (host : Nat)
    (e : TransportErr) :
    retryEligible c (errAdvance c s t host) t e = retryEligible c s t e := by
  unfold retryEligible
  rw [errAdvance_urls]

/-! ### Claims -/

/-- C1: the claim says a task with `hostPin` set — to any index, including 0 —
is never transparently retried on a transport error, the error being
surfaced through its sink.  The code's own `maxRetries` documentation agrees
("Requests bound to a specific server … will never be retried
automatically"), but the retry guard tests the JS-falsy `!task.host`, which
treats a pin of `0` like an absent pin: a task pinned to host 0 that fails
with `ECONNREFUSED`/`connect` is re-queued and retried (always on host 0 —
the selection guard `task.host !== undefined` does honor the pin).  This
theorem evaluates the code at the failing input: the retry guard accepts the
pinned-to-0 task, the error arm re-queues it with `retries = 1` instead of
surfacing, a persistent connection-refused loop on two hosts settles only
after 2 transport attempts, and an environment succeeding on every host
other than 0 is never consulted (the retried attempt still runs on host 0). -/
theorem pinnedHostZero_transport_error_is_retried :
    retryEligible cfgNoneDefault { twoHostPinned with queue := [] } taskPinnedZero connRefused
        = true
    ∧ (handleErr cfgNoneDefault { twoHostPinned with queue := [] } taskPinnedZero 0
        connRefused).2 = none
    ∧ (handleErr cfgNoneDefault { twoHostPinned with queue := [] } taskPinnedZero 0
        connRefused).1.queue = [{ taskPinnedZero with retries := 1 }]
    ∧ runTask id cfgNoneDefault (fun _ _ => Outcome.err connRefused) 10 0 twoHostPinned
        = some (2, Settled.failed connRefused)
    ∧ runTask id cfgNoneDefault
        (fun _ h => if h == 0 then Outcome.err connRefused else Outcome.ok plainOkRes) 10 0
        twoHostPinned = some (2, Settled.failed connRefused) :=
  ⟨rfl, rfl, rfl, rfl, rfl⟩

/-- C2: an unpinned task failing with a connection-refused transport error
(`connect`/`ECONNREFUSED`, system-level) while `shouldRetry` is on and
`retries < effectiveMax` — where `effectiveMax = maxRetries` when positive,
else `|hosts| − 1` — is re-queued to the tail with its counter incremented;
concretely, with `maxRetries = 0` and 3 hosts a persistent
connection-refused failure settles after exactly 3 transport attempts (2
retries), and with `maxRetries = false` after exactly 1 (no retry). -/
theorem unpinned_connRefused_retry (c : Config) (s : ConnState) (t : Task) (host : Nat)
    (e : TransportErr) (hpin : t.host = none) (hsr : c.shouldRetry = true)
    (hlt : t.retries < (if c.maxRetries ≠ 0 then c.maxRetries else s.urls.length - 1))
    (hsys : e.isSystemError = true) (hsc : e.syscall = "connect")
    (hcode : e.code = "ECONNREFUSED") :
    ((handleErr c s t host e).2 = none
      ∧ (handleErr c s t host e).1.queue = s.queue ++ [{ t with retries := t.retries + 1 }])
    ∧ runTask id cfgNoneDefault (fun _ _ => Outcome.err connRefused) 10 0 threeHostState
        = some (3, Settled.failed connRefused)
    ∧ runTask id cfgNoneNoRetry (fun _ _ => Outcome.err connRefused) 10 0
        { threeHostState with queue := [taskUnpinned] }
        = some (1, Settled.failed connRefused)
    ∧ (∀ (c' : Config) (s' : ConnState) (t' : Task) (host' : Nat) (e' : TransportErr),
        c'.shouldRetry = false → (handleErr c' s' t' host' e').2 = some e')
    ∧ (∀ strat : LbStrategy, (mkConfig strat MaxRetriesCfg.off).shouldRetry = false) := by
  refine ⟨?_, rfl, rfl, ?_, fun strat => rfl⟩
  case refine_2 =>
    intro c' s' t' host' e' hoff
    simp [handleErr, retryEligible, hoff]
  have hlt' : t.retries < if c.maxRetries = 0 then s.urls.length - 1 else c.maxRetries := by
    rwa [ite_not] at hlt
  have helig : retryEligible c (errAdvance c s t host) t e = true := by
    rw [errAdvance_retryEligible]
    unfold retryEligible jsHostFalsy
    rw [hpin, hsr, hsys, hsc, hcode]
    simp [hlt']
  simp only [handleErr]
  rw [helig]
  simp [errAdvance_queue]

/-- Closed witness for C2: the general re-queue conclusion instantiated at
the default three-host configuration with a fresh unpinned task. -/
theorem unpinned_connRefused_retry_witness :
    (handleErr cfgNoneDefault { threeHostState with queue := [] } taskUnpinned 0
        connRefused).2 = none
    ∧ (handleErr cfgNoneDefault { threeHostState with queue := [] } taskUnpinned 0
        connRefused).1.queue = [{ taskUnpinned with retries := 1 }] :=
  (unpinned_connRefused_retry cfgNoneDefault { threeHostState with queue := [] }
    taskUnpinned 0 connRefused rfl rfl (by decide) rfl rfl rfl).1

/-- C3: a transport success with status 503 and a truthy (non-empty)
`x-arango-endpoint` header is a leader redirect: the header URL (normalized)
is added to the host list when new, the index it resolves to becomes the
task's pin, the primary cursor moves to that index iff it still equals the
origin host, the task goes back to the queue tail with its `retries`
counter untouched, and the response is not delivered. -/
theorem leaderRedirect_requeues_pinned (san : String → String) (s : ConnState) (t : Task)
    (host : Nat) (r : Res) (u : String)
    (hst : r.statusCode = 503) (hdr : hget r.headers "x-arango-endpoint" = some u)
    (hu : u ≠ "") :
    (handleOk san s t host r).2 = none
    ∧ (handleOk san s t host r).1.urls
        = s.urls ++ (if s.urls.contains (san u) then [] else [san u])
    ∧ (handleOk san s t host r).1.queue
        = s.queue
            ++ [{ t with
                  host := some (indexOfStr (handleOk san s t host r).1.urls (san u)) }]
    ∧ ({ t with
          host := some (indexOfStr (handleOk san s t host r).1.urls (san u)) } : Task).retries
        = t.retries
    ∧ (handleOk san s t host r).1.activeHost
        = (if s.activeHost = host then indexOfStr (handleOk san s t host r).1.urls (san u)
           else s.activeHost)
    ∧ (handleOk san s t host r).1.activeDirtyHost = s.activeDirtyHost := by
  by_cases hmem : san u ∈ s.urls <;> by_cases hah : s.activeHost = host <;>
    simp [handleOk, addToHostList, hdr, hst, hu, hmem, hah, List.filter, beq_iff_eq,
      List.elem_eq_mem]

/-- One known host, cursors at 0, empty queue. -/
def oneHostState : ConnState :=
  { urls := ["http://h1:8529"], activeHost := 0, activeDirtyHost := 0, queue := [] }

/-- A 503 response naming a new leader in `x-arango-endpoint`. -/
def leaderRes : Res :=
  { statusCode := 503, headers := [("x-arango-endpoint", "http://h2:8529")],
    body := "", contentTypeJson := false, parsed := none }

/-- Closed witness for C3: a single-host pool receives a 503 naming a new
leader; the URL is appended at index 1, the task re-queued pinned to 1 with
`retries` still 0, and the cursor moved to 1. -/
theorem leaderRedirect_requeues_pinned_witness :
    (handleOk id oneHostState taskUnpinned 0 leaderRes).2 = none
    ∧ (handleOk id oneHostState taskUnpinned 0 leaderRes).1.urls
        = ["http://h1:8529", "http://h2:8529"]
    ∧ (handleOk id oneHostState taskUnpinned 0 leaderRes).1.queue
        = [{ taskUnpinned with host := some 1 }]
    ∧ (handleOk id oneHostState taskUnpinned 0 leaderRes).1.activeHost = 1 := by
  have h := leaderRedirect_requeues_pinned id oneHostState taskUnpinned 0 leaderRes
    "http://h2:8529" rfl rfl (by decide)
  exact ⟨h.1, by decide, by decide, by decide⟩

/-- C4: for a non-redirected success whose body is parsed to `b`, the error
envelope (all four own keys on a truthy value) wins regardless of HTTP
status: the sink rejects with the domain error built from the body — in
particular carrying the body's `errorNum` — and never with an HTTP error;
an HTTP error arises only when the envelope check fails and the status is
at least 400. -/
theorem errorEnvelope_beats_httpStatus (eb : Bool) (res : Res) (b : Json)
    (hp : res.parsed = some b) (hct : res.contentTypeJson = true)
    (hne : res.body.length ≠ 0) :
    (hasErrorEnvelope b = true →
        interpretResponse eb res = ReqResult.arangoError b
        ∧ arangoErrorNum b = b.getField "errorNum"
        ∧ ∀ st bd, interpretResponse eb res ≠ ReqResult.httpError st bd)
    ∧ (hasErrorEnvelope b = false → 400 ≤ res.statusCode →
        interpretResponse eb res = ReqResult.httpError res.statusCode b)
    ∧ (hasErrorEnvelope b = false → res.statusCode < 400 →
        interpretResponse eb res = ReqResult.success b) := by
  refine ⟨?_, ?_, ?_⟩
  · intro henv
    have h1 : interpretResponse eb res = ReqResult.arangoError b := by
      simp [interpretResponse, hct, hp, hne, classify, henv]
    refine ⟨h1, rfl, fun st bd h => ?_⟩
    rw [h1] at h
    exact ReqResult.noConfusion h
  · intro henv hst
    simp [interpretResponse, hct, hp, hne, classify, henv, hst]
  · intro henv hst
    simp [interpretResponse, hct, hp, hne, classify, henv, Nat.not_le.mpr hst]

/-- The error-envelope body of the spec's scenario 5: a 404 carrying
`errorNum` 1203. -/
def notFoundBody : Json :=
  Json.jobj [("error", Json.jbool true), ("code", Json.jnum 404),
    ("errorMessage", Json.jstr "collection not found"), ("errorNum", Json.jnum 1203)]

/-- The 404 response carrying `notFoundBody`. -/
def notFoundRes : Res :=
  { statusCode := 404, headers := [("content-type", "application/json")]
    body := "\x7b\"error\":true,\"code\":404,\"errorMessage\":\"collection not found\",\"errorNum\":1203\x7d"
    contentTypeJson := true, parsed := some notFoundBody }

/-- Closed witness for C4: the 404 + envelope response yields the domain
error with `errorNum` 1203 and no HTTP error. -/
theorem errorEnvelope_beats_httpStatus_witness :
    hasErrorEnvelope notFoundBody = true
    ∧ interpretResponse false notFoundRes = ReqResult.arangoError notFoundBody
    ∧ arangoErrorNum notFoundBody = some (Json.jnum 1203)
    ∧ ∀ st bd, interpretResponse false notFoundRes ≠ ReqResult.httpError st bd := by
  have h := (errorEnvelope_beats_httpStatus false notFoundRes notFoundBody rfl rfl
    (by decide)).1 rfl
  exact ⟨rfl, h.1, rfl, h.2.2⟩

/-- Last-wins lookup distributes over the object-spread overlay: the later
layer `b` is consulted first, the earlier layer `a` only on a miss. -/
theorem hget_append (a b : Headers) (k : String) :
    hget (a ++ b) k = (hget b k).or (hget a k) := by
  induction a with
  | nil =>
    simp only [List.nil_append, hget]
    cases hget b k <;> rfl
  | cons p rest ih =>
    rw [List.cons_append]
    show (match hget (rest ++ b) k with
      | some w => some w
      | none => if p.1 == k then some p.2 else none) = _
    rw [ih]
    cases hb : hget b k <;> cases hr : hget rest k <;>
      simp [hget, Option.or, hb, hr]

/-- C5: the final header map of `Connection.request` is the last-wins
overlay defaults → core (`content-type`, `x-arango-version`) → transaction
(`x-arango-trx-id`, when the transaction id is truthy) → caller: a lookup
consults the caller's headers first, then the transaction layer, then the
core pair, and the connection defaults only when all later layers miss — so
a caller-supplied header with the same name as any earlier layer wins. -/
theorem requestHeaders_lastWins (defaults caller : Headers) (ver : Nat)
    (trx : Option String) (ct : String) (k : String) :
    hget (requestHeaders defaults ver trx ct caller) k =
      (hget caller k).or
        (if trxActive trx ∧ k = "x-arango-trx-id" then some (trx.getD "")
         else if k = "content-type" then some ct
         else if k = "x-arango-version" then some (toString ver)
         else hget defaults k) := by
  have hget_single : ∀ a v q : String,
      hget [(a, v)] q = if q = a then some v else none := by
    intro a v q
    rcases eq_or_ne q a with h | h
    · simp [hget, h.symm]
    · simp [hget, h, h.symm]
  have hget_pair : ∀ a va b vb q : String,
      hget [(a, va), (b, vb)] q
        = if q = b then some vb else if q = a then some va else none := by
    intro a va b vb q
    simp only [hget]
    rcases eq_or_ne q a with h1 | h1 <;> rcases eq_or_ne q b with h2 | h2
    · simp [h1.symm, h2.symm]
    · simp [h1.symm, h2, h2.symm]
    · simp [h1, h1.symm, h2.symm]
    · simp [h1, h1.symm, h2, h2.symm]
  simp only [requestHeaders]
  by_cases htrx : trxActive trx
  · rw [if_pos htrx, hget_append, hget_append, hget_append]
    cases hget caller k with
    | some v => simp
    | none =>
      simp only [Option.none_or, hget_single, hget_pair, htrx, true_and]
      by_cases hk1 : k = "x-arango-trx-id" <;>
        by_cases hk2 : k = "content-type" <;>
          by_cases hk3 : k = "x-arango-version" <;>
            simp_all [Option.or]
  · rw [if_neg htrx, hget_append, hget_append]
    cases hget caller k with
    | some v => simp
    | none =>
      have hfalse : (trxActive trx ∧ k = "x-arango-trx-id") = False := by
        simp [htrx]
      simp only [Option.none_or, hget_pair, hfalse, if_false]
      by_cases hk2 : k = "content-type" <;>
        by_cases hk3 : k = "x-arango-version" <;>
          simp_all [Option.or]

/-- C6: under `ROUND_ROBIN`, over any run of unpinned non-dirty dequeues
with no transport errors and no redirects (so nothing but selection touches
the cursor), the k-th task executes on host `(start + k) mod |hosts|`, the
cursor advancing at selection time, and after the run the cursor stands at
`(start + |run|) mod |hosts|` with the host list untouched. -/
theorem roundRobin_kth_host (c : Config) (s : ConnState) (ts : List Task)
    (hrr : c.strategy = LbStrategy.ROUND_ROBIN) (hcur : s.activeHost < s.urls.length)
    (hts : ∀ t ∈ ts, t.host = none ∧ t.allowDirtyRead = false) :
    ((selectHosts c s ts).1
      = (List.range ts.length).map (fun k => (s.activeHost + k) % s.urls.length)
    ∧ (selectHosts c s ts).2.activeHost = (s.activeHost + ts.length) % s.urls.length
    ∧ (selectHosts c s ts).2.urls = s.urls)
    ∧ (∀ (san : String → String) (s' : ConnState) (t' : Task) (h : Nat) (r : Res),
        r.statusCode ≠ 503 →
        handleOk san s' t' h r = (s', some { arangojsHostId := h, res := r })) := by
  refine ⟨?_, fun san s' t' h r hr => by simp [handleOk, hr]⟩
  induction ts generalizing s with
  | nil =>
    refine ⟨rfl, ?_, rfl⟩
    simp [selectHosts, Nat.mod_eq_of_lt hcur]
  | cons t ts ih =>
    obtain ⟨hpin, hdirty⟩ := hts t (List.mem_cons_self _ _)
    have hn : 0 < s.urls.length := Nat.lt_of_le_of_lt (Nat.zero_le _) hcur
    have hsel : selectHost c s t
        = (s.activeHost,
           { s with activeHost := (s.activeHost + 1) % s.urls.length }, t) := by
      simp [selectHost, hpin, hdirty, hrr]
    have hcur' : (s.activeHost + 1) % s.urls.length < s.urls.length := Nat.mod_lt _ hn
    have ih' := ih { s with activeHost := (s.activeHost + 1) % s.urls.length } hcur'
      (fun t' ht' => hts t' (List.mem_cons_of_mem _ ht'))
    have hrun : selectHosts c s (t :: ts)
        = (s.activeHost
            :: (selectHosts c { s with activeHost := (s.activeHost + 1) % s.urls.length }
                  ts).1,
           (selectHosts c { s with activeHost := (s.activeHost + 1) % s.urls.length }
              ts).2) := by
      simp [selectHosts, hsel]
    refine ⟨?_, ?_, ?_⟩
    · rw [hrun]
      show s.activeHost :: _ = _
      rw [ih'.1]
      simp only [List.length_cons]
      rw [List.range_succ_eq_map, List.map_cons, List.map_map]
      refine congrArg₂ List.cons ?_ ?_
      · show s.activeHost = (s.activeHost + 0) % s.urls.length
        rw [Nat.add_zero, Nat.mod_eq_of_lt hcur]
      · refine List.map_congr_left (fun k _ => ?_)
        show ((s.activeHost + 1) % s.urls.length + k) % s.urls.length
          = (s.activeHost + Nat.succ k) % s.urls.length
        rw [Nat.mod_add_mod]
        congr 1
        omega
    · rw [hrun]
      show (selectHosts c _ ts).2.activeHost = _
      rw [ih'.2.1]
      show ((s.activeHost + 1) % s.urls.length + ts.length) % s.urls.length = _
      rw [Nat.mod_add_mod]
      congr 1
      simp [List.length_cons]
      omega
    · rw [hrun]
      exact ih'.2.2

/-- Round-robin configuration with default retry policy. -/
def cfgRR : Config := mkConfig LbStrategy.ROUND_ROBIN MaxRetriesCfg.notSet

/-- Three known hosts, cursors at 0, empty queue. -/
def threeHostsIdle : ConnState :=
  { urls := ["http://h1:8529", "http://h2:8529", "http://h3:8529"]
    activeHost := 0, activeDirtyHost := 0, queue := [] }

/-- Closed witness for C6: three hosts, cursor at 0, three back-to-back
unpinned submissions run on hosts 0, 1, 2 and the cursor ends back at 0. -/
theorem roundRobin_kth_host_witness :
    (selectHosts cfgRR threeHostsIdle [taskUnpinned, taskUnpinned, taskUnpinned]).1
        = [0, 1, 2]
    ∧ (selectHosts cfgRR threeHostsIdle
        [taskUnpinned, taskUnpinned, taskUnpinned]).2.activeHost = 0 := by
  have h := roundRobin_kth_host cfgRR threeHostsIdle
    [taskUnpinned, taskUnpinned, taskUnpinned] rfl (by decide) (by decide)
  exact ⟨h.1.1.trans (by decide), h.1.2.1.trans (by decide)⟩

/-- C7: an unpinned dirty-read dequeue takes the dirty cursor's host,
advances the dirty cursor by one modulo `|hosts|`, adds the
`x-arango-allow-dirty-read: true` header to the task, and leaves the
primary cursor (and host list) untouched — so under policy `NONE`
interleaved unpinned non-dirty dequeues all keep selecting the primary
cursor's host and change nothing. -/
theorem dirtyRead_selection (c : Config) (s : ConnState) (t : Task)
    (hpin : t.host = none) (hd : t.allowDirtyRead = true) :
    (selectHost c s t).1 = s.activeDirtyHost
    ∧ (selectHost c s t).2.1.activeDirtyHost = (s.activeDirtyHost + 1) % s.urls.length
    ∧ (selectHost c s t).2.1.activeHost = s.activeHost
    ∧ (selectHost c s t).2.1.urls = s.urls
    ∧ (selectHost c s t).2.2
        = { t with headers := t.headers ++ [("x-arango-allow-dirty-read", "true")] }
    ∧ hget (selectHost c s t).2.2.headers "x-arango-allow-dirty-read" = some "true"
    ∧ (∀ (s' : ConnState) (t' : Task), t'.host = none → t'.allowDirtyRead = false →
        c.strategy = LbStrategy.NONE → selectHost c s' t' = (s'.activeHost, s', t')) := by
  refine ⟨?_, ?_, ?_, ?_, ?_, ?_, ?_⟩
  · simp [selectHost, hpin, hd]
  · simp [selectHost, hpin, hd]
  · simp [selectHost, hpin, hd]
  · simp [selectHost, hpin, hd]
  · simp [selectHost, hpin, hd]
  · have hsel : (selectHost c s t).2.2
        = { t with headers := t.headers ++ [("x-arango-allow-dirty-read", "true")] } := by
      simp [selectHost, hpin, hd]
    rw [hsel]
    show hget (t.headers ++ [("x-arango-allow-dirty-read", "true")])
      "x-arango-allow-dirty-read" = some "true"
    rw [hget_append]
    rfl
  · intro s' t' hpin' hd' hnone
    simp [selectHost, hpin', hd', hnone]

/-- A dirty-read task with no pin. -/
def taskDirty : Task :=
  { host := none, allowDirtyRead := true, retries := 0, headers := [] }

/-- Closed witness for C7: on three hosts with both cursors at 0, a dirty
read runs on host 0, advances only the dirty cursor, and carries the
dirty-read header; a non-dirty task under `NONE` still selects host 0 and
changes nothing. -/
theorem dirtyRead_selection_witness :
    (selectHost cfgNoneDefault threeHostsIdle taskDirty).1 = 0
    ∧ (selectHost cfgNoneDefault threeHostsIdle taskDirty).2.1.activeDirtyHost = 1
    ∧ (selectHost cfgNoneDefault threeHostsIdle taskDirty).2.1.activeHost = 0
    ∧ hget (selectHost cfgNoneDefault threeHostsIdle taskDirty).2.2.headers
        "x-arango-allow-dirty-read" = some "true"
    ∧ selectHost cfgNoneDefault threeHostsIdle taskUnpinned
        = (0, threeHostsIdle, taskUnpinned) := by
  have h := dirtyRead_selection cfgNoneDefault threeHostsIdle taskDirty rfl rfl
  exact ⟨h.1, h.2.1.trans (by decide), h.2.2.1, h.2.2.2.2.2.1,
    h.2.2.2.2.2.2 threeHostsIdle taskUnpinned rfl rfl rfl⟩

/-- C8: on a transport error for a task sent to host `H`, the primary
cursor advances by one modulo `|hosts|` exactly when failover is in use,
more than one host is known, the task is not a dirty read, and the cursor
still equals `H` — and `useFailOver` as derived by the constructor is
`false` exactly for `ROUND_ROBIN`, so no failover advance happens on error
under that policy. -/
theorem failover_advance_condition (c : Config) (s : ConnState) (t : Task) (host : Nat)
    (e : TransportErr) :
    ((handleErr c s t host e).1.activeHost
      = if c.useFailOver = true ∧ 1 < s.urls.length ∧ t.allowDirtyRead = false
            ∧ s.activeHost = host
        then (s.activeHost + 1) % s.urls.length
        else s.activeHost)
    ∧ (∀ mr : MaxRetriesCfg, (mkConfig LbStrategy.ROUND_ROBIN mr).useFailOver = false)
    ∧ (∀ strat : LbStrategy, strat ≠ LbStrategy.ROUND_ROBIN →
        ∀ mr : MaxRetriesCfg, (mkConfig strat mr).useFailOver = true) := by
  refine ⟨?_, fun mr => rfl, fun strat hs mr => by simp [mkConfig, hs]⟩
  have h1 : (handleErr c s t host e).1.activeHost = (errAdvance c s t host).activeHost := by
    simp only [handleErr]
    split <;> rfl
  rw [h1]
  unfold errAdvance
  by_cases hd : t.allowDirtyRead <;> by_cases hl : 1 < s.urls.length <;>
    by_cases hh : s.activeHost = host <;> by_cases hf : c.useFailOver <;>
      simp [hd, hl, hh, hf]

/-- C9 counterexample: one call to `addToHostList` whose input repeats a
fresh URL stores that URL twice — the dedup filter runs only against the
pre-existing list, before any append — so the stored list is not
duplicate-free, contradicting the claim. -/
theorem addToHostList_dup_counterexample :
    (addToHostList id oneHostState ["http://h2:8529", "http://h2:8529"]).2.urls
      = ["http://h1:8529", "http://h2:8529", "http://h2:8529"]
    ∧ ¬ (addToHostList id oneHostState
          ["http://h2:8529", "http://h2:8529"]).2.urls.Nodup := by
  exact ⟨rfl, by decide⟩

/-- C9 (amended): when the input's normalized URLs are pairwise distinct
and the stored list is duplicate-free, the stored list stays duplicate-free
(dedup applies against the pre-existing list only); the call returns, in
input order, the index of each normalized URL's first occurrence in the
stored list; and a call with a single already-present URL leaves the list
unchanged and returns the URL's original index. -/
theorem addToHostList_dedup_amended (san : String → String) (s : ConnState)
    (urls : List String) (hnd : (urls.map san).Nodup) (hs : s.urls.Nodup) :
    (addToHostList san s urls).2.urls.Nodup
    ∧ (addToHostList san s urls).1
        = (urls.map san).map (fun u => indexOfStr (addToHostList san s urls).2.urls u)
    ∧ ∀ u : String, san u ∈ s.urls →
        (addToHostList san s [u]).2.urls = s.urls
        ∧ (addToHostList san s [u]).1 = [indexOfStr s.urls (san u)] := by
  refine ⟨?_, rfl, ?_⟩
  · show (s.urls ++ (urls.map san).filter (fun u => !s.urls.contains u)).Nodup
    refine List.Nodup.append hs (hnd.filter _) ?_
    intro a ha hb
    have := List.mem_filter.mp hb
    simp [List.elem_eq_mem, ha] at this
  · intro u hu
    have hfil : [san u].filter (fun v => !s.urls.contains v) = [] := by
      simp [List.filter, List.elem_eq_mem, hu]
    constructor
    · show s.urls ++ [san u].filter (fun v => !s.urls.contains v) = s.urls
      rw [hfil, List.append_nil]
    · show [indexOfStr (s.urls ++ [san u].filter (fun v => !s.urls.contains v)) (san u)]
        = _
      rw [hfil, List.append_nil]

/-- Closed witness for C9 (amended): adding a new distinct URL keeps the
list duplicate-free, and re-adding the existing URL returns its original
index 0 with the list unchanged. -/
theorem addToHostList_dedup_amended_witness :
    (addToHostList id oneHostState ["http://h2:8529"]).2.urls.Nodup
    ∧ (addToHostList id oneHostState ["http://h1:8529"]).2.urls = oneHostState.urls
    ∧ (addToHostList id oneHostState ["http://h1:8529"]).1 = [0] := by
  have h := addToHostList_dedup_amended id oneHostState ["http://h2:8529"]
    (by decide) (by decide)
  have h2 := addToHostList_dedup_amended id oneHostState ["http://h1:8529"]
    (by decide) (by decide)
  exact ⟨h.1, (h2.2.2 "http://h1:8529" (by decide)).1,
    ((h2.2.2 "http://h1:8529" (by decide)).2).trans (by decide)⟩

/-- C10: the envelope test inspects only the presence of the four own keys
`error`, `code`, `errorMessage`, `errorNum` on the parsed JSON object,
never their values and never the HTTP status: any such response — the
field values and the status universally quantified here, so even a 2xx
with `error: false` — is rejected as a domain error, not delivered. -/
theorem envelope_checks_presence_only (eb : Bool) (res : Res)
    (fields : List (String × Json))
    (hp : res.parsed = some (Json.jobj fields))
    (hct : res.contentTypeJson = true) (hne : res.body.length ≠ 0)
    (he : (Json.jobj fields).hasOwnProperty "error" = true)
    (hc : (Json.jobj fields).hasOwnProperty "code" = true)
    (hm : (Json.jobj fields).hasOwnProperty "errorMessage" = true)
    (hn : (Json.jobj fields).hasOwnProperty "errorNum" = true) :
    interpretResponse eb res = ReqResult.arangoError (Json.jobj fields) := by
  have henv : hasErrorEnvelope (Json.jobj fields) = true := by
    simp [hasErrorEnvelope, Json.truthy, he, hc, hm, hn]
  simp [interpretResponse, hct, hp, hne, classify, henv]

/-- A body whose envelope keys are all present but whose `error` field is
`false` and whose `errorNum` is 0. -/
def okEnvelopeBody : Json :=
  Json.jobj [("error", Json.jbool false), ("code", Json.jnum 200),
    ("errorMessage", Json.jstr ""), ("errorNum", Json.jnum 0)]

/-- A 200 response carrying `okEnvelopeBody`. -/
def okEnvelopeRes : Res :=
  { statusCode := 200, headers := [("content-type", "application/json")]
    body := "\x7b\"error\":false,\"code\":200,\"errorMessage\":\"\",\"errorNum\":0\x7d"
    contentTypeJson := true, parsed := some okEnvelopeBody }

/-- Closed witness for C10: a status-200 response whose body says
`error: false` is still rejected as a domain error, purely because the
four keys are present. -/
theorem envelope_checks_presence_only_witness :
    okEnvelopeRes.statusCode = 200
    ∧ okEnvelopeBody.getField "error" = some (Json.jbool false)
    ∧ interpretResponse false okEnvelopeRes = ReqResult.arangoError okEnvelopeBody :=
  ⟨rfl, rfl, envelope_checks_presence_only false okEnvelopeRes _ rfl rfl (by decide)
    rfl rfl rfl rfl⟩

end ArangojsConn
